import Mathlib

/-
Verification of the connect orchestration subsystem of kt-connect
(src/pkg/kt/command/connect.go).

Go maps with string keys are embedded as association lists (`SMap`) with
insert-replaces semantics; lookups are performed with `findVal`.  External
collaborators (cluster API, file system, registry, signal handling) are
embedded as an explicit environment record `Env`, and the orchestration
functions are translated to pure functions that additionally return the
list of performed steps (`Ev`) and the updated state, so that ordering and
error-propagation properties can be stated.
-/

set_option autoImplicit false
set_option maxRecDepth 100000

namespace KtConnect

/-! ## String maps (Go `map[string]string`) -/

/-- Association-list embedding of Go's `map[string]string`. -/
abbrev SMap := List (String × String)

/-- Lookup in an `SMap`: first entry whose key matches wins. -/
def findVal (m : SMap) (k : String) : Option String :=
  match m with
  | [] => none
  | p :: rest => if p.1 == k then some p.2 else findVal rest k

/-- Remove every binding of key `k`. -/
def eraseKey (m : SMap) (k : String) : SMap :=
  match m with
  | [] => []
  | p :: rest => if p.1 == k then eraseKey rest k else p :: eraseKey rest k

/-- Go map assignment `m[k] = v`: replaces any previous binding of `k`. -/
def insertVal (m : SMap) (k v : String) : SMap :=
  (k, v) :: eraseKey m k

/-- Apply a list of map assignments in order (later writes win). -/
def applyWrites (m : SMap) (ws : List (String × String)) : SMap :=
  ws.foldl (fun acc p => insertVal acc p.1 p.2) m

/-- The value of the last write to key `k` in the write list `ws`, if any. -/
def lastWrite (ws : List (String × String)) (k : String) : Option String :=
  match ws with
  | [] => none
  | p :: rest =>
    match lastWrite rest k with
    | some v => some v
    | none => if p.1 == k then some p.2 else none

/-- Left-biased choice on `Option String`. -/
def orElseOpt (a b : Option String) : Option String :=
  match a with
  | some v => some v
  | none => b

/-- Modelled from the spec: ownership-marker label key (`common.ControlBy`). -/
def ControlBy : String := "control-by"

/-- Modelled from the spec: ownership-marker label value (`common.KubernetesTool`). -/
def KubernetesTool : String := "kt"

/-- Modelled from the spec: component label key (`common.KTComponent`). -/
def KTComponent : String := "kt-component"

/-- Modelled from the spec: component tag for connect (`common.ComponentConnect`). -/
def ComponentConnect : String := "connect"

/-- Modelled from the spec: name label key (`common.KTName`). -/
def KTName : String := "kt-name"

/-- Modelled from the spec: version label key (`common.KTVersion`). -/
def KTVersion : String := "kt-version"

/-- Modelled from the spec: local-domain environment variable name
(`common.EnvVarLocalDomain`). -/
def EnvVarLocalDomain : String := "KT_LOCAL_DOMAIN"

/-- Modelled from the spec: client-side TUN address environment variable name
(`common.ClientTunIP`). -/
def ClientTunIP : String := "CLIENT_TUN_IP"

/-- Modelled from the spec: server-side TUN address environment variable name
(`common.ServerTunIP`). -/
def ServerTunIP : String := "SERVER_TUN_IP"

/-- Transport mode (`common.ConnectMethodTun` / `ConnectMethodSocks` / ssh default). -/
inductive ConnectMethod where
  | sshForward
  | socks
  | tun
deriving DecidableEq, Repr

/-! ## Options (`options.DaemonOptions`, modelled from the fields the sample uses). -/

/-- Connect-specific options (`options.ConnectOptions`). -/
structure ConnectOptions where
  Method : ConnectMethod := ConnectMethod.sshForward
  TunCidr : String := ""
  SocksPort : Nat := 0
  ShareShadow : Bool := false
  Dump2HostsNamespaces : List String := []
  LocalDomain : String := ""
  SourceIP : String := ""
  DestIP : String := ""
deriving DecidableEq, Repr

/-- Runtime state (`options.RuntimeOptions`). -/
structure RuntimeOptions where
  PidFile : String := ""
  Shadow : Option String := none
  SSHCM : Option String := none
  Dump2Host : Bool := false
deriving DecidableEq, Repr

/-- Top-level options (`options.DaemonOptions`).  `Labels` models the result of
`util.String2Map(options.Labels)` (the parsed user-supplied label map). -/
structure DaemonOptions where
  ConnectOpts : ConnectOptions := {}
  RuntimeOpts : RuntimeOptions := {}
  Namespace : String := "default"
  Labels : SMap := []
deriving DecidableEq, Repr

/-! ## String splitting (Go `strings.Split` with a one-character separator). -/

/-- Split a character list at every occurrence of `c` (Go `strings.Split`
semantics for a single-character separator). -/
def splitOnChar (c : Char) (l : List Char) : List (List Char) :=
  match l with
  | [] => [[]]
  | x :: xs =>
    let r := splitOnChar c xs
    if x == c then [] :: r
    else
      match r with
      | [] => [[x]]
      | y :: ys => (x :: y) :: ys

/-- Go `strings.Split(s, c)` for a one-character separator `c`. -/
def splitChar (s : String) (c : Char) : List String :=
  (splitOnChar c s.data).map List.asString

/-! ## `labels` (connect.go lines 173-185). -/

/-- The Go map literal the `labels` function starts from. -/
def baseLabels (workload : String) : SMap :=
  insertVal (insertVal (insertVal [] ControlBy KubernetesTool) KTComponent ComponentConnect)
    KTName workload

/-- `labels` from connect.go: base map literal, then user labels merged in,
then the version tag assigned from the final hyphen-delimited segment. -/
def labels (workload : String) (opts : DaemonOptions) : SMap :=
  let base := baseLabels workload
  let merged := opts.Labels.foldl (fun m p => insertVal m p.1 p.2) base
  let splits := splitChar workload '-'
  insertVal merged KTVersion (splits.getLastD "")

/-! ## `envs` (connect.go lines 161-171). -/

/-- `envs` from connect.go: local-domain variable when configured, TUN
addresses when the method is Tun. -/
def envs (opts : DaemonOptions) : SMap :=
  let e : SMap := []
  let e :=
    if opts.ConnectOpts.LocalDomain == "" then e
    else insertVal e EnvVarLocalDomain opts.ConnectOpts.LocalDomain
  if opts.ConnectOpts.Method = ConnectMethod.tun then
    insertVal (insertVal e ClientTunIP opts.ConnectOpts.SourceIP) ServerTunIP
      opts.ConnectOpts.DestIP
  else e

/-! ## Shadow workload naming (connect.go lines 117-121). -/

/-- Workload naming from `getOrCreateShadow`.  `randomSuffix` models
`strings.ToLower(util.RandomString(5))` (the `util` package is not part of
the sample source; per the spec it produces a random 5-character string). -/
def getOrCreateShadowName (shareShadow : Bool) (randomSuffix : String) : String :=
  let workload := "kt-connect-daemon-" ++ randomSuffix
  if shareShadow then "kt-connect-daemon-connect-shared" else workload

/-! ## `setupDump2Host` (connect.go lines 136-159). -/

/-- `setupDump2Host` from connect.go.  `serviceHosts` embeds
`kubernetes.ServiceHosts` (an external collaborator returning the
service-name to address map of a namespace).  Returns the merged table that
is handed to `util.DumpHosts` together with the updated options
(`RuntimeOptions.Dump2Host` set). -/
def setupDump2Host (opts : DaemonOptions) (serviceHosts : String → SMap) :
    SMap × DaemonOptions :=
  let hosts := serviceHosts opts.Namespace
  let hosts :=
    if 0 < opts.ConnectOpts.Dump2HostsNamespaces.length then
      opts.ConnectOpts.Dump2HostsNamespaces.foldl (fun hosts ns =>
        if ns == opts.Namespace then hosts
        else
          (serviceHosts ns).foldl (fun hosts p =>
            if p.2 == "" || p.2 == "None" then hosts
            else insertVal hosts (p.1 ++ "." ++ ns) p.2) hosts) hosts
    else hosts
  (hosts, { opts with RuntimeOpts := { opts.RuntimeOpts with Dump2Host := true } })

/-- Keep the entries whose address is neither empty nor the literal None. -/
def keepGood (entries : SMap) : SMap :=
  match entries with
  | [] => []
  | p :: rest => if p.2 == "" || p.2 == "None" then keepGood rest else p :: keepGood rest

/-- The qualified writes contributed by one extra namespace: surviving
entries under the key `serviceName.namespace`. -/
def qualifyWrites (ns : String) (entries : SMap) : List (String × String) :=
  (keepGood entries).map (fun p => (p.1 ++ "." ++ ns, p.2))

/-- All qualified writes performed by `setupDump2Host`, in order; extra
namespaces equal to the primary namespace contribute nothing. -/
def extraWrites (primaryNs : String) (serviceHosts : String → SMap) :
    List String → List (String × String)
  | [] => []
  | ns :: rest =>
    (if ns == primaryNs then [] else qualifyWrites ns (serviceHosts ns)) ++
      extraWrites primaryNs serviceHosts rest

/-- Errors of the connect flow, named as in the spec's taxonomy. -/
inductive KtErr where
  | alreadyRunning
  | pidWriteFailed
  | kubernetesFailed
  | invalidCIDR
  | rangeExhausted
  | proxyConfigFailed
  | provisionFailed
  | cidrQueryFailed
  | transportFailed
  | combineOptsFailed
deriving DecidableEq, Repr

/-! ## CIDR parsing and the TUN IP allocator (connect.go lines 187-207).

`net.ParseCIDR` and the cilium `ipallocator` are external dependencies whose
source is not part of the sample; they are modelled from the spec:
the CIDR is parsed into an IPv4 address and a prefix length, the network
address is the IP with host bits cleared, and the allocator draws host
addresses contiguously in allocation order starting at network + 1,
with the network and broadcast boundary addresses reserved. -/

/-- Modelled from the spec: parse a decimal numeral. -/
def parseDecimal (s : String) : Option Nat :=
  if s.data.isEmpty then none
  else if s.data.all (fun c => c.isDigit) then
    some (s.data.foldl (fun n c => n * 10 + (c.toNat - 48)) 0)
  else none

/-- Modelled from the spec: parse one dotted-quad octet (0..255, no leading zero). -/
def parseOctet (s : String) : Option Nat :=
  if 3 < s.length then none
  else
    match parseDecimal s with
    | none => none
    | some n =>
      if 255 < n then none
      else if 1 < s.data.length && s.data.head? == some '0' then none
      else some n

/-- Modelled from the spec: parse a dotted-quad IPv4 address into a `Nat`. -/
def parseIPv4 (s : String) : Option Nat :=
  match (splitOnChar '.' s.data).map List.asString with
  | [a, b, c, d] =>
    match parseOctet a, parseOctet b, parseOctet c, parseOctet d with
    | some a, some b, some c, some d => some (((a * 256 + b) * 256 + c) * 256 + d)
    | _, _, _, _ => none
  | _ => none

/-- Modelled from the spec: `net.ParseCIDR`, returning the address and the
prefix length. -/
def parseCIDR (s : String) : Option (Nat × Nat) :=
  match (splitOnChar '/' s.data).map List.asString with
  | [ipStr, maskStr] =>
    match parseIPv4 ipStr, parseDecimal maskStr with
    | some ip, some ones => if ones ≤ 32 then some (ip, ones) else none
    | _, _ => none
  | _ => none

/-- Number of addresses covered by a prefix length. -/
def rangeSize (ones : Nat) : Nat := 2 ^ (32 - ones)

/-- Modelled from the spec: number of allocatable host addresses — all
addresses of the range except the network and broadcast boundaries. -/
def usableCount (ones : Nat) : Nat := rangeSize ones - 2

/-- The network address: the parsed address with host bits cleared. -/
def networkOf (ip ones : Nat) : Nat := ip / rangeSize ones * rangeSize ones

/-- Modelled from the spec: state of the contiguous allocation space built by
`ipallocator.NewAllocatorCIDRRange` over a parsed CIDR. -/
structure AllocRange where
  network : Nat
  ones : Nat
  nextIdx : Nat
deriving DecidableEq, Repr

/-- Modelled from the spec: `AllocateNext` draws host addresses contiguously,
starting at network + 1; fails with `rangeExhausted` when no usable
address remains. -/
def allocateNext (r : AllocRange) : Except KtErr (Nat × AllocRange) :=
  if r.nextIdx < usableCount r.ones then
    Except.ok (r.network + 1 + r.nextIdx, { r with nextIdx := r.nextIdx + 1 })
  else Except.error KtErr.rangeExhausted

/-- Numeric core of `allocateTunIP` from connect.go: parse the CIDR, build an
allocation range, draw two addresses. -/
def allocateTunIPNum (cidr : String) : Except KtErr (Nat × Nat) :=
  match parseCIDR cidr with
  | none => Except.error KtErr.invalidCIDR
  | some (ip, ones) =>
    let rge : AllocRange := { network := networkOf ip ones, ones := ones, nextIdx := 0 }
    match allocateNext rge with
    | Except.error e => Except.error e
    | Except.ok (ip1, rge1) =>
      match allocateNext rge1 with
      | Except.error e => Except.error e
      | Except.ok (ip2, _) => Except.ok (ip1, ip2)

/-- Modelled from the spec: `net.IP.String()` for an IPv4 address held as a `Nat`. -/
def ipToString (n : Nat) : String :=
  Nat.repr (n / 16777216 % 256) ++ "." ++ Nat.repr (n / 65536 % 256) ++ "." ++
    Nat.repr (n / 256 % 256) ++ "." ++ Nat.repr (n % 256)

/-- `allocateTunIP` from connect.go: returns the two drawn addresses rendered
as strings, or the parse/exhaustion error. -/
def allocateTunIP (cidr : String) : Except KtErr (String × String) :=
  match allocateTunIPNum cidr with
  | Except.error e => Except.error e
  | Except.ok (a, b) => Except.ok (ipToString a, ipToString b)

/-! ## Orchestration model (connect.go lines 24-134).

The command action, `Connect` and `connectToCluster` are embedded as pure
functions over an environment of external collaborators.  Each function
returns the ordered list of performed steps so that ordering claims can be
stated, plus the updated world/options and the Go error result. -/

/-- Steps performed by the connect flow, in execution order. -/
inductive Ev where
  | allocTunIP
  | checkLock
  | writePidFile
  | kubernetesInit
  | setupDump
  | setGlobalProxy
  | setEnvProxy
  | getOrCreateShadow
  | clusterCidrs
  | outbound
  | waitSignal
deriving DecidableEq, Repr

/-- Behaviour of the external collaborators for one run.  Functions whose
source is outside the sample (util, registry, the cluster client) are
represented by their observable outcomes. -/
structure Env where
  isWindows : Bool := false
  daemonAlive : Nat → Bool := fun _ => false
  myPid : Nat := 1
  writePidOk : Bool := true
  kubernetesOk : Bool := true
  serviceHosts : String → SMap := fun _ => []
  globalProxyOk : Bool := true
  envProxyOk : Bool := true
  shadowResult : Option (String × String × String × String) :=
    some ("1.1.1.1", "pod", "sshcm", "credential")
  cidrsResult : Option (List String) := some []
  outboundOk : Bool := true
  randomSuffix : String := "abcde"
  combineKubeOptsOk : Bool := true

/-- The file-system state the exclusivity lock lives in: the owner recorded
in the pid file, if the file exists. -/
structure World where
  lockOwner : Option Nat := none
deriving DecidableEq, Repr

/-- Modelled from the spec: `util.IsDaemonRunning` — the lock file exists and
its owner process is alive. -/
def isDaemonRunning (env : Env) (w : World) : Bool :=
  match w.lockOwner with
  | some pid => env.daemonAlive pid
  | none => false

/-- Modelled from the spec: `util.WritePidFile` — atomically write the current
process identity to the lock file. -/
def writePidFile (env : Env) (w : World) : World × Except KtErr Nat :=
  if env.writePidOk then ({ lockOwner := some env.myPid }, Except.ok env.myPid)
  else (w, Except.error KtErr.pidWriteFailed)

/-- `getOrCreateShadow` from connect.go.  The second Go parameter `err` is
accepted and ignored, exactly as in the source (it is immediately
overwritten by the cluster call's error).  On success the shadow name and
config-map reference are recorded in the runtime options; on failure the
options are returned unchanged. -/
def getOrCreateShadow (env : Env) (opts : DaemonOptions) (_err : Except KtErr Unit) :
    DaemonOptions × Except KtErr (String × String × String) :=
  let workload := getOrCreateShadowName opts.ConnectOpts.ShareShadow env.randomSuffix
  let _lbls := labels workload opts
  let _envVars := envs opts
  match env.shadowResult with
  | none => (opts, Except.error KtErr.provisionFailed)
  | some (endPointIP, podName, sshcm, _credential) =>
    ({ opts with RuntimeOpts :=
        { opts.RuntimeOpts with Shadow := some workload, SSHCM := some sshcm } },
     Except.ok (endPointIP, podName, _credential))

/-- `connectToCluster` from connect.go (lines 77-115): write the pid file,
build the cluster client, optionally dump hosts, optionally set up the two
socks proxies (failures only logged), provision the shadow, query cluster
CIDRs, hand off to the transport. -/
def connectToCluster (env : Env) (opts : DaemonOptions) (w : World) :
    List Ev × World × DaemonOptions × Except KtErr Unit :=
  match writePidFile env w with
  | (w1, Except.error e) => ([Ev.writePidFile], w1, opts, Except.error e)
  | (w1, Except.ok _pid) =>
    if env.kubernetesOk then
      let ev1 : List Ev := [Ev.writePidFile, Ev.kubernetesInit]
      let doDump := env.isWindows || decide (0 < opts.ConnectOpts.Dump2HostsNamespaces.length)
      let ev2 := if doDump then ev1 ++ [Ev.setupDump] else ev1
      let opts1 := if doDump then (setupDump2Host opts env.serviceHosts).2 else opts
      let ev3 :=
        if opts1.ConnectOpts.Method = ConnectMethod.socks then
          ev2 ++ [Ev.setGlobalProxy, Ev.setEnvProxy]
        else ev2
      -- In the source both proxy errors are only logged; the Go variable err
      -- holds the env-proxy call's error after the socks branch (the global
      -- proxy call's error has already been overwritten), and it is passed to
      -- getOrCreateShadow, which ignores it.
      let errVar : Except KtErr Unit :=
        if opts1.ConnectOpts.Method = ConnectMethod.socks then
          if env.envProxyOk then Except.ok () else Except.error KtErr.proxyConfigFailed
        else Except.ok ()
      match getOrCreateShadow env opts1 errVar with
      | (opts2, Except.error e) => (ev3 ++ [Ev.getOrCreateShadow], w1, opts2, Except.error e)
      | (opts2, Except.ok (_endPointIP, _podName, _credential)) =>
        match env.cidrsResult with
        | none =>
          (ev3 ++ [Ev.getOrCreateShadow, Ev.clusterCidrs], w1, opts2,
           Except.error KtErr.cidrQueryFailed)
        | some _cidrs =>
          (ev3 ++ [Ev.getOrCreateShadow, Ev.clusterCidrs, Ev.outbound], w1, opts2,
           if env.outboundOk then Except.ok () else Except.error KtErr.transportFailed)
    else ([Ev.writePidFile, Ev.kubernetesInit], w1, opts, Except.error KtErr.kubernetesFailed)

/-- `Connect` from connect.go (lines 58-75): refuse to run when another
daemon holds the lock, otherwise run `connectToCluster` and block for a
terminal signal. -/
def ConnectRun (env : Env) (opts : DaemonOptions) (w : World) :
    List Ev × World × DaemonOptions × Except KtErr Unit :=
  if isDaemonRunning env w then
    ([Ev.checkLock], w, opts, Except.error KtErr.alreadyRunning)
  else
    match connectToCluster env opts w with
    | (ev, w1, opts1, Except.error e) => (Ev.checkLock :: ev, w1, opts1, Except.error e)
    | (ev, w1, opts1, Except.ok _) =>
      (Ev.checkLock :: ev ++ [Ev.waitSignal], w1, opts1, Except.ok ())

/-- `CompleteOptions` from connect.go (lines 44-55): in Tun mode allocate the
tunnel address pair and record it in the options. -/
def CompleteOptions (opts : DaemonOptions) :
    List Ev × DaemonOptions × Except KtErr Unit :=
  if opts.ConnectOpts.Method = ConnectMethod.tun then
    match allocateTunIP opts.ConnectOpts.TunCidr with
    | Except.error e => ([Ev.allocTunIP], opts, Except.error e)
    | Except.ok (srcIP, destIP) =>
      ([Ev.allocTunIP],
       { opts with ConnectOpts :=
          { opts.ConnectOpts with SourceIP := srcIP, DestIP := destIP } },
       Except.ok ())
  else ([], opts, Except.ok ())

/-- The connect command action (connect.go lines 29-40): `CompleteOptions`,
then `combineKubeOpts` (external, may fail), then `Connect`. -/
def connectCommandRun (env : Env) (opts : DaemonOptions) (w : World) :
    List Ev × World × DaemonOptions × Except KtErr Unit :=
  match CompleteOptions opts with
  | (ev0, opts1, Except.error e) => (ev0, w, opts1, Except.error e)
  | (ev0, opts1, Except.ok _) =>
    if env.combineKubeOptsOk then
      match ConnectRun env opts1 w with
      | (ev1, w1, opts2, r) => (ev0 ++ ev1, w1, opts2, r)
    else (ev0, w, opts1, Except.error KtErr.combineOptsFailed)

/-- The steps a run performed, in order. -/
def runTrace (r : List Ev × World × DaemonOptions × Except KtErr Unit) : List Ev := r.1

/-- The world state after a run. -/
def runWorld (r : List Ev × World × DaemonOptions × Except KtErr Unit) : World := r.2.1

/-- The options state after a run. -/
def runOptions (r : List Ev × World × DaemonOptions × Except KtErr Unit) : DaemonOptions :=
  r.2.2.1

/-- The error result of a run. -/
def runResult (r : List Ev × World × DaemonOptions × Except KtErr Unit) :
    Except KtErr Unit := r.2.2.2

/-! ## Specification predicates and concrete fixtures used by the claims. -/

/-- What a successful TUN allocation on CIDR string `s` (parsed as `(ip, ones)`)
must satisfy: two distinct addresses, distinct also after rendering, both
strictly between the network and broadcast boundary, the first recorded as
the source and the second as the destination tunnel address. -/
def tunAllocSpec (s : String) (ip ones : Nat) : Prop :=
  ∃ a b : Nat,
    allocateTunIPNum s = Except.ok (a, b) ∧
    allocateTunIP s = Except.ok (ipToString a, ipToString b) ∧
    a ≠ b ∧
    ipToString a ≠ ipToString b ∧
    networkOf ip ones < a ∧ a < networkOf ip ones + rangeSize ones - 1 ∧
    networkOf ip ones < b ∧ b < networkOf ip ones + rangeSize ones - 1 ∧
    (∀ opts : DaemonOptions,
      opts.ConnectOpts.Method = ConnectMethod.tun →
      opts.ConnectOpts.TunCidr = s →
      (CompleteOptions opts).2.1.ConnectOpts.SourceIP = ipToString a ∧
      (CompleteOptions opts).2.1.ConnectOpts.DestIP = ipToString b)

/-- What must hold of a `connectToCluster` run whose shadow provisioning
fails: the provisioning error is returned, the cluster CIDR query and the
transport hand-off never run, and the shadow bookkeeping fields are
untouched. -/
def provisionAbortSpec (env : Env) (opts : DaemonOptions) (w : World) : Prop :=
  runResult (connectToCluster env opts w) = Except.error KtErr.provisionFailed ∧
  Ev.clusterCidrs ∉ runTrace (connectToCluster env opts w) ∧
  Ev.outbound ∉ runTrace (connectToCluster env opts w) ∧
  (runOptions (connectToCluster env opts w)).RuntimeOpts.Shadow = opts.RuntimeOpts.Shadow ∧
  (runOptions (connectToCluster env opts w)).RuntimeOpts.SSHCM = opts.RuntimeOpts.SSHCM

/-- What must hold of a socks-mode `connectToCluster` run: both proxy set-up
calls are attempted, the flow still reaches shadow provisioning, and the
outcome of the run never depends on the two proxy results. -/
def socksNonfatalSpec (env : Env) (opts : DaemonOptions) (w : World) : Prop :=
  (Ev.setGlobalProxy ∈ runTrace (connectToCluster env opts w) ∧
   Ev.setEnvProxy ∈ runTrace (connectToCluster env opts w) ∧
   Ev.getOrCreateShadow ∈ runTrace (connectToCluster env opts w)) ∧
  (∀ g1 e1 g2 e2 : Bool,
    connectToCluster { env with globalProxyOk := g1, envProxyOk := e1 } opts w
      = connectToCluster { env with globalProxyOk := g2, envProxyOk := e2 } opts w)

/-- Fixture for the lock-ordering counterexample: every process is alive, so
any recorded lock owner is considered running. -/
def lockHeldEnv : Env := { daemonAlive := fun _ => true }

/-- Fixture: Tun-mode options with a well-formed CIDR. -/
def tunOpts : DaemonOptions :=
  { ConnectOpts := { Method := ConnectMethod.tun, TunCidr := "10.0.0.0/24" } }

/-- Fixture: socks-mode options. -/
def socksOpts : DaemonOptions :=
  { ConnectOpts := { Method := ConnectMethod.socks } }

/-- Fixture for the host-table counterexample: the primary namespace ns1 maps
service svcA to the empty address. -/
def emptyAddrHosts : String → SMap :=
  fun ns => if ns == "ns1" then [("svcA", "")] else []

/-- Fixture for the host-table example of the spec: primary ns1 has
svcA at 1.1.1.1, extra ns2 has svcA at 2.2.2.2 and svcB with an empty
address. -/
def exampleHosts : String → SMap :=
  fun ns =>
    if ns == "ns1" then [("svcA", "1.1.1.1")]
    else if ns == "ns2" then [("svcA", "2.2.2.2"), ("svcB", "")]
    else []

/-- Fixture: options that request dumping namespace ns2 from primary ns1. -/
def dumpOpts : DaemonOptions :=
  { Namespace := "ns1", ConnectOpts := { Dump2HostsNamespaces := ["ns2"] } }

/-! ## Auxiliary lemmas about the map embedding and the host-table merge. -/

theorem findVal_eraseKey (m : SMap) (k k' : String) (h : (k == k') = false) :
    findVal (eraseKey m k) k' = findVal m k' := by
  induction m with
  | nil => rfl
  | cons p rest ih =>
    by_cases hp : p.1 = k
    · have h1 : (p.1 == k) = true := by simp [hp]
      have h2 : (p.1 == k') = false := by rw [hp]; exact h
      simp [eraseKey, h1, findVal, h2, ih]
    · have h1 : (p.1 == k) = false := by simp [hp]
      simp [eraseKey, h1, findVal, ih]

theorem findVal_insert (m : SMap) (k v k' : String) :
    findVal (insertVal m k v) k' = if k == k' then some v else findVal m k' := by
  by_cases h : k = k'
  · simp [insertVal, findVal, h]
  · have hb : (k == k') = false := by simp [h]
    simp [insertVal, findVal, hb, findVal_eraseKey m k k' hb]

theorem applyWrites_append (m : SMap) (a b : List (String × String)) :
    applyWrites m (a ++ b) = applyWrites (applyWrites m a) b := by
  simp [applyWrites, List.foldl_append]

theorem findVal_applyWrites (ws : List (String × String)) :
    ∀ (m : SMap) (k : String),
      findVal (applyWrites m ws) k = orElseOpt (lastWrite ws k) (findVal m k) := by
  induction ws with
  | nil => intro m k; rfl
  | cons p rest ih =>
    intro m k
    have hstep : applyWrites m (p :: rest) = applyWrites (insertVal m p.1 p.2) rest := rfl
    rw [hstep, ih, findVal_insert]
    show orElseOpt (lastWrite rest k) _ = orElseOpt (lastWrite (p :: rest) k) (findVal m k)
    cases hl : lastWrite rest k with
    | some v => simp [lastWrite, hl, orElseOpt]
    | none =>
      cases hp : (p.1 == k) with
      | true => simp [lastWrite, hl, hp, orElseOpt]
      | false => simp [lastWrite, hl, hp, orElseOpt]

/-! ## Constants from the `common` package.

Modelled from the spec: the `common` package is not part of the sample
source; only the distinctness of the label/env keys and the connect method
tags matters, so representative string values are used. -/

theorem applyWrites_cons (m : SMap) (q : String × String) (ws : List (String × String)) :
    applyWrites m (q :: ws) = applyWrites (insertVal m q.1 q.2) ws := rfl

theorem keepGood_cons_bad (p : String × String) (rest : SMap)
    (hb : (p.2 == "" || p.2 == "None") = true) :
    keepGood (p :: rest) = keepGood rest := by
  show (if p.2 == "" || p.2 == "None" then keepGood rest else p :: keepGood rest)
      = keepGood rest
  rw [hb]
  simp

theorem keepGood_cons_good (p : String × String) (rest : SMap)
    (hb : (p.2 == "" || p.2 == "None") = false) :
    keepGood (p :: rest) = p :: keepGood rest := by
  show (if p.2 == "" || p.2 == "None" then keepGood rest else p :: keepGood rest)
      = p :: keepGood rest
  rw [hb]
  simp

theorem qualifyWrites_cons_bad (ns : String) (p : String × String) (rest : SMap)
    (hb : (p.2 == "" || p.2 == "None") = true) :
    qualifyWrites ns (p :: rest) = qualifyWrites ns rest := by
  unfold qualifyWrites; rw [keepGood_cons_bad p rest hb]

theorem qualifyWrites_cons_good (ns : String) (p : String × String) (rest : SMap)
    (hb : (p.2 == "" || p.2 == "None") = false) :
    qualifyWrites ns (p :: rest) = (p.1 ++ "." ++ ns, p.2) :: qualifyWrites ns rest := by
  unfold qualifyWrites; rw [keepGood_cons_good p rest hb, List.map_cons]

theorem foldl_entries_eq_applyWrites (ns : String) (entries : SMap) :
    ∀ m : SMap,
      entries.foldl (fun hosts p =>
          if p.2 == "" || p.2 == "None" then hosts
          else insertVal hosts (p.1 ++ "." ++ ns) p.2) m
        = applyWrites m (qualifyWrites ns entries) := by
  induction entries with
  | nil => intro m; rfl
  | cons p rest ih =>
    intro m
    rw [List.foldl_cons]
    cases hb : (p.2 == "" || p.2 == "None") with
    | true =>
      rw [ih, qualifyWrites_cons_bad ns p rest hb]
      congr 1
    | false =>
      rw [ih, qualifyWrites_cons_good ns p rest hb, applyWrites_cons]
      congr 1

theorem foldl_namespaces_eq_applyWrites (primaryNs : String)
    (serviceHosts : String → SMap) (nss : List String) :
    ∀ m : SMap,
      nss.foldl (fun hosts ns =>
          if ns == primaryNs then hosts
          else
            (serviceHosts ns).foldl (fun hosts p =>
              if p.2 == "" || p.2 == "None" then hosts
              else insertVal hosts (p.1 ++ "." ++ ns) p.2) hosts) m
        = applyWrites m (extraWrites primaryNs serviceHosts nss) := by
  induction nss with
  | nil => intro m; rfl
  | cons ns rest ih =>
    intro m
    rw [List.foldl_cons]
    cases hb : (ns == primaryNs) with
    | true =>
      rw [ih]
      have he : extraWrites primaryNs serviceHosts (ns :: rest)
          = extraWrites primaryNs serviceHosts rest := by
        show (if ns == primaryNs then [] else qualifyWrites ns (serviceHosts ns)) ++
            extraWrites primaryNs serviceHosts rest = _
        rw [hb]
        simp
      rw [he]
      congr 1
    | false =>
      rw [foldl_entries_eq_applyWrites, ih]
      have he : extraWrites primaryNs serviceHosts (ns :: rest)
          = qualifyWrites ns (serviceHosts ns) ++ extraWrites primaryNs serviceHosts rest := by
        show (if ns == primaryNs then [] else qualifyWrites ns (serviceHosts ns)) ++
            extraWrites primaryNs serviceHosts rest = _
        rw [hb]
        simp
      rw [he, applyWrites_append]
      congr 1

theorem setupDump2Host_eq_applyWrites (opts : DaemonOptions)
    (serviceHosts : String → SMap) :
    (setupDump2Host opts serviceHosts).1
      = applyWrites (serviceHosts opts.Namespace)
          (extraWrites opts.Namespace serviceHosts
            opts.ConnectOpts.Dump2HostsNamespaces) := by
  unfold setupDump2Host
  cases hns : opts.ConnectOpts.Dump2HostsNamespaces with
  | nil => simp [extraWrites, applyWrites]
  | cons ns rest =>
    simp only [List.length_cons, Nat.zero_lt_succ, if_true]
    rw [foldl_namespaces_eq_applyWrites]

/-! ## Error taxonomy (spec section 7). -/

/-- The decimal rendering of an octet parses back to the octet. -/
theorem parseOctet_repr : ∀ n : Nat, n < 256 → parseOctet (Nat.repr n) = some n := by decide

theorem string_ext (a b : String) (h : a.data = b.data) : a = b := by
  cases a; cases b; simp only at h; rw [h]

/-- Two addresses agreeing on the upper three octets but differing in the
last octet render to different strings. -/
theorem ipToString_ne_of_octet (x y : Nat)
    (hq24 : x / 16777216 = y / 16777216) (hq16 : x / 65536 = y / 65536)
    (hqd : x / 256 = y / 256) (hm : x % 256 ≠ y % 256) :
    ipToString x ≠ ipToString y := by
  intro heq
  unfold ipToString at heq
  rw [hq24, hq16, hqd] at heq
  have hd := congrArg String.data heq
  simp only [String.data_append] at hd
  simp only [List.append_assoc] at hd
  have h1 := List.append_cancel_left hd
  have h2 := List.append_cancel_left h1
  have h3 := List.append_cancel_left h2
  have h4 := List.append_cancel_left h3
  have h5 := List.append_cancel_left h4
  have h6 := List.append_cancel_left h5
  have hrepr : Nat.repr (x % 256) = Nat.repr (y % 256) := string_ext _ _ h6
  have r1 := parseOctet_repr (x % 256) (Nat.mod_lt _ (by norm_num))
  have r2 := parseOctet_repr (y % 256) (Nat.mod_lt _ (by norm_num))
  rw [hrepr] at r1
  rw [r2] at r1
  exact hm (Option.some.inj r1).symm

/-! ## Claim theorems. -/

/-- Claim C10: the environment map handed to the shadow provisioner holds the
local-domain variable exactly when `LocalDomain` is non-empty, and holds the
client/server TUN address variables exactly when the transport method is
Tun; in any other mode it carries no TUN addresses. -/
theorem envs_characterization :
    ∀ opts : DaemonOptions,
      findVal (envs opts) EnvVarLocalDomain
        = (if opts.ConnectOpts.LocalDomain = "" then none
           else some opts.ConnectOpts.LocalDomain) ∧
      findVal (envs opts) ClientTunIP
        = (if opts.ConnectOpts.Method = ConnectMethod.tun
           then some opts.ConnectOpts.SourceIP else none) ∧
      findVal (envs opts) ServerTunIP
        = (if opts.ConnectOpts.Method = ConnectMethod.tun
           then some opts.ConnectOpts.DestIP else none) := by
  intro opts
  cases hm : opts.ConnectOpts.Method <;> by_cases hl : opts.ConnectOpts.LocalDomain = "" <;>
    simp +decide [envs, hm, hl, findVal_insert, findVal, EnvVarLocalDomain, ClientTunIP,
      ServerTunIP]

/-- Claim C6: with `shareShadow = true` the workload name is the fixed
deterministic string, so any two invocations agree; with `shareShadow =
false` the name is the fixed prefix followed by the 5-character random
suffix. -/
theorem shadow_naming_policy :
    (∀ r : String, getOrCreateShadowName true r = "kt-connect-daemon-connect-shared") ∧
    (∀ r1 r2 : String, getOrCreateShadowName true r1 = getOrCreateShadowName true r2) ∧
    (∀ r : String, r.length = 5 →
      ∃ suffix : String, suffix.length = 5 ∧
        getOrCreateShadowName false r = "kt-connect-daemon-" ++ suffix) :=
  ⟨fun _ => rfl, fun _ _ => rfl, fun r hr => ⟨r, hr, rfl⟩⟩

/-- Witness for C6 at the concrete suffix abcde. -/
theorem shadow_naming_policy_witness :
    ("abcde" : String).length = 5 ∧
    (∃ suffix : String, suffix.length = 5 ∧
      getOrCreateShadowName false "abcde" = "kt-connect-daemon-" ++ suffix) :=
  ⟨by decide, shadow_naming_policy.2.2 "abcde" (by decide)⟩

/-- Claim C3 counterexample: with workload a-b and the user label
kt-version = custom, the generated version tag b overwrites the
user-supplied value, so the user value does not take precedence on that
collision. -/
theorem labels_user_precedence_counterexample :
    findVal (labels "a-b" { Labels := [(KTVersion, "custom")] }) KTVersion = some "b" ∧
    findVal (labels "a-b" { Labels := [(KTVersion, "custom")] }) KTVersion
      ≠ some "custom" := by
  exact ⟨rfl, by decide⟩

/-- Claim C3 (amended): the version tag is always the final hyphen-delimited
segment of the workload name, overriding any user-supplied value at that
key; at every other key the user-supplied labels take precedence over the
generated control/component/name labels. -/
theorem labels_characterization :
    ∀ (workload : String) (opts : DaemonOptions),
      findVal (labels workload opts) KTVersion
        = some ((splitChar workload '-').getLastD "") ∧
      ∀ k : String, k ≠ KTVersion →
        findVal (labels workload opts) k
          = orElseOpt (lastWrite opts.Labels k) (findVal (baseLabels workload) k) := by
  intro workload opts
  have hl : labels workload opts
      = insertVal (applyWrites (baseLabels workload) opts.Labels) KTVersion
          ((splitChar workload '-').getLastD "") := rfl
  constructor
  · rw [hl, findVal_insert]
    simp
  · intro k hk
    have hb : (KTVersion == k) = false := by
      simp only [beq_eq_false_iff_ne]
      exact fun h => hk h.symm
    rw [hl, findVal_insert, hb]
    simp only [Bool.false_eq_true, if_false]
    exact findVal_applyWrites opts.Labels (baseLabels workload) k

/-- Witness for C3 at workload a-b and the user label team = x. -/
theorem labels_characterization_witness :
    (("team" : String) ≠ KTVersion) ∧
    findVal (labels "a-b" { Labels := [("team", "x")] }) "team"
      = orElseOpt (lastWrite [("team", "x")] "team") (findVal (baseLabels "a-b") "team") :=
  ⟨by decide, (labels_characterization "a-b" { Labels := [("team", "x")] }).2 "team"
    (by decide)⟩

/-- Claim C1 counterexample: an entry of the primary namespace whose address
is the empty string is NOT dropped from the merged table, contradicting the
claim that every such entry is dropped. -/
theorem setupDump2Host_counterexample :
    findVal (setupDump2Host dumpOpts emptyAddrHosts).1 "svcA" = some "" := rfl

/-- Claim C1 (amended): looking up any key of the merged table returns the
last namespace-qualified write contributed by the extra namespaces — where
extra namespaces equal to the primary are skipped and extra entries with
address empty or None are dropped — and otherwise the primary namespace's
entry unchanged (primary entries are kept even with address empty or None);
on the spec's example the merged table is exactly
svcA to 1.1.1.1 and svcA.ns2 to 2.2.2.2. -/
theorem setupDump2Host_amended :
    (∀ (opts : DaemonOptions) (serviceHosts : String → SMap) (k : String),
      findVal (setupDump2Host opts serviceHosts).1 k
        = orElseOpt
            (lastWrite (extraWrites opts.Namespace serviceHosts
              opts.ConnectOpts.Dump2HostsNamespaces) k)
            (findVal (serviceHosts opts.Namespace) k)) ∧
    (∀ k : String,
      findVal (setupDump2Host dumpOpts exampleHosts).1 k
        = findVal [("svcA", "1.1.1.1"), ("svcA.ns2", "2.2.2.2")] k) := by
  constructor
  · intro opts serviceHosts k
    rw [setupDump2Host_eq_applyWrites]
    exact findVal_applyWrites _ _ _
  · intro k
    have hres : (setupDump2Host dumpOpts exampleHosts).1
        = [("svcA.ns2", "2.2.2.2"), ("svcA", "1.1.1.1")] := rfl
    rw [hres]
    by_cases h1 : k = "svcA"
    · subst h1; rfl
    · by_cases h2 : k = "svcA.ns2"
      · subst h2; rfl
      · have b1 : (("svcA.ns2" : String) == k) = false := by
          simp only [beq_eq_false_iff_ne]
          exact fun h => h2 h.symm
        have b2 : (("svcA" : String) == k) = false := by
          simp only [beq_eq_false_iff_ne]
          exact fun h => h1 h.symm
        simp [findVal, b1, b2]

/-- Claim C2 counterexample: a Tun-mode run against a held lock performs the
TUN IP allocation and only then fails the lock check with AlreadyRunning —
so a run that fails with AlreadyRunning did perform IP allocation. -/
theorem lock_order_counterexample :
    runResult (connectCommandRun lockHeldEnv tunOpts { lockOwner := some 7 })
      = Except.error KtErr.alreadyRunning ∧
    runTrace (connectCommandRun lockHeldEnv tunOpts { lockOwner := some 7 })
      = [Ev.allocTunIP, Ev.checkLock] ∧
    Ev.allocTunIP ∈ runTrace (connectCommandRun lockHeldEnv tunOpts { lockOwner := some 7 }) := by
  refine ⟨rfl, rfl, ?_⟩
  have h : runTrace (connectCommandRun lockHeldEnv tunOpts { lockOwner := some 7 })
      = [Ev.allocTunIP, Ev.checkLock] := rfl
  rw [h]
  exact List.mem_cons_self _ _

/-- Claim C2 (amended): in Tun mode the TUN IP allocation runs during option
completion, before the exclusivity-lock check; a Tun run that fails with
AlreadyRunning has therefore already performed the allocation, and its
trace is exactly the allocation followed by the lock check. -/
theorem tun_alloc_precedes_lock :
    ∀ (env : Env) (opts : DaemonOptions) (w : World) (pr : String × String),
      opts.ConnectOpts.Method = ConnectMethod.tun →
      allocateTunIP opts.ConnectOpts.TunCidr = Except.ok pr →
      isDaemonRunning env w = true →
      env.combineKubeOptsOk = true →
      runTrace (connectCommandRun env opts w) = [Ev.allocTunIP, Ev.checkLock] ∧
      runResult (connectCommandRun env opts w) = Except.error KtErr.alreadyRunning := by
  intro env opts w pr hm ha hd hc
  simp [connectCommandRun, CompleteOptions, ConnectRun, hm, ha, hd, hc, runTrace, runResult]

/-- Witness for C2 (amended) at the concrete held-lock Tun fixture. -/
theorem tun_alloc_precedes_lock_witness :
    tunOpts.ConnectOpts.Method = ConnectMethod.tun ∧
    allocateTunIP tunOpts.ConnectOpts.TunCidr = Except.ok ("10.0.0.1", "10.0.0.2") ∧
    isDaemonRunning lockHeldEnv { lockOwner := some 7 } = true ∧
    lockHeldEnv.combineKubeOptsOk = true ∧
    (runTrace (connectCommandRun lockHeldEnv tunOpts { lockOwner := some 7 })
        = [Ev.allocTunIP, Ev.checkLock] ∧
     runResult (connectCommandRun lockHeldEnv tunOpts { lockOwner := some 7 })
        = Except.error KtErr.alreadyRunning) :=
  ⟨rfl, rfl, rfl, rfl,
   tun_alloc_precedes_lock lockHeldEnv tunOpts { lockOwner := some 7 }
     ("10.0.0.1", "10.0.0.2") rfl rfl rfl rfl⟩

/-- Claim C7: when the cluster rejects the shadow provisioning, the flow
aborts with that error, the cluster CIDR query and the transport hand-off
never run, and the shadow name and config reference stay untouched. -/
theorem provision_failure_aborts :
    ∀ (env : Env) (opts : DaemonOptions) (w : World),
      env.writePidOk = true → env.kubernetesOk = true → env.shadowResult = none →
      provisionAbortSpec env opts w := by
  intro env opts w hp hk hs
  unfold provisionAbortSpec connectToCluster writePidFile getOrCreateShadow
  rw [hp, hk, hs]
  simp only [eq_self_iff_true, if_true]
  split_ifs <;>
    exact ⟨rfl, by simp [runTrace], by simp [runTrace], rfl, rfl⟩

/-- Witness for C7 at a concrete failing environment. -/
theorem provision_failure_aborts_witness :
    ({ shadowResult := none } : Env).writePidOk = true ∧
    ({ shadowResult := none } : Env).kubernetesOk = true ∧
    ({ shadowResult := none } : Env).shadowResult = none ∧
    provisionAbortSpec { shadowResult := none } {} {} :=
  ⟨rfl, rfl, rfl, provision_failure_aborts { shadowResult := none } {} {} rfl rfl rfl⟩

/-- Claim C8: in Socks mode both proxy registrar calls are attempted, the
flow always proceeds to shadow provisioning, and neither proxy outcome can
change the run — the proxy error is never returned to the caller. -/
theorem socks_proxy_nonfatal :
    ∀ (env : Env) (opts : DaemonOptions) (w : World),
      opts.ConnectOpts.Method = ConnectMethod.socks →
      env.writePidOk = true → env.kubernetesOk = true →
      socksNonfatalSpec env opts w := by
  intro env opts w hm hp hk
  constructor
  · unfold connectToCluster writePidFile getOrCreateShadow
    rw [hp, hk]
    simp only [eq_self_iff_true, if_true]
    cases hs : env.shadowResult with
    | none => split_ifs <;> simp_all [runTrace, setupDump2Host]
    | some q =>
      obtain ⟨a, b, c, d⟩ := q
      cases hc : env.cidrsResult with
      | none => split_ifs <;> simp_all [runTrace, setupDump2Host]
      | some cs => split_ifs <;> simp_all [runTrace, setupDump2Host]
  · intro g1 e1 g2 e2
    cases env
    unfold connectToCluster writePidFile getOrCreateShadow
    dsimp only

/-- Witness for C8 at the concrete socks fixture. -/
theorem socks_proxy_nonfatal_witness :
    socksOpts.ConnectOpts.Method = ConnectMethod.socks ∧
    ({} : Env).writePidOk = true ∧
    ({} : Env).kubernetesOk = true ∧
    socksNonfatalSpec {} socksOpts {} :=
  ⟨rfl, rfl, rfl, socks_proxy_nonfatal {} socksOpts {} rfl rfl rfl⟩

/-- Every branch of `connectToCluster` that runs with a writable pid file
records the pid write in its trace and leaves the lock owned by this
process. -/
theorem connectToCluster_writes_pid :
    ∀ (env : Env) (opts : DaemonOptions) (w : World),
      env.writePidOk = true →
      Ev.writePidFile ∈ runTrace (connectToCluster env opts w) ∧
      (runWorld (connectToCluster env opts w)).lockOwner = some env.myPid := by
  intro env opts w hp
  unfold connectToCluster writePidFile getOrCreateShadow
  rw [hp]
  simp only [eq_self_iff_true, if_true]
  cases hk : env.kubernetesOk with
  | false => exact ⟨by simp [runTrace], rfl⟩
  | true =>
    cases hs : env.shadowResult with
    | none => split_ifs <;> exact ⟨by simp [runTrace], rfl⟩
    | some q =>
      obtain ⟨a, b, c, d⟩ := q
      cases hc : env.cidrsResult with
      | none => split_ifs <;> exact ⟨by simp [runTrace], rfl⟩
      | some cs => split_ifs <;> exact ⟨by simp [runTrace], rfl⟩

/-- Claim C9: while a live process owns the lock file, `Connect` fails with
AlreadyRunning, writes nothing and performs no setup step (the trace is
just the lock check, world and options unchanged); once the lock file is
gone, acquisition succeeds: the pid is written and this process becomes
the lock owner. -/
theorem lock_exclusion :
    (∀ (env : Env) (opts : DaemonOptions) (w : World) (p : Nat),
      w.lockOwner = some p → env.daemonAlive p = true →
      ConnectRun env opts w = ([Ev.checkLock], w, opts, Except.error KtErr.alreadyRunning)) ∧
    (∀ (env : Env) (opts : DaemonOptions) (w : World),
      w.lockOwner = none → env.writePidOk = true →
      Ev.writePidFile ∈ runTrace (ConnectRun env opts w) ∧
      (runWorld (ConnectRun env opts w)).lockOwner = some env.myPid) := by
  constructor
  · intro env opts w p hw hd
    simp [ConnectRun, isDaemonRunning, hw, hd]
  · intro env opts w hw hp
    have h := connectToCluster_writes_pid env opts w hp
    have hd : isDaemonRunning env w = false := by simp [isDaemonRunning, hw]
    unfold ConnectRun
    rw [hd]
    simp only [Bool.false_eq_true, if_false]
    rcases hres : connectToCluster env opts w with ⟨ev, w1, opts1, r⟩
    rw [hres] at h
    cases r with
    | error e =>
      refine ⟨List.mem_cons_of_mem _ h.1, h.2⟩
    | ok u =>
      cases u
      constructor
      · exact List.mem_cons_of_mem _ (List.mem_append_left _ h.1)
      · exact h.2

/-- Witness for C9: both halves at concrete worlds. -/
theorem lock_exclusion_witness :
    (({ lockOwner := some 3 } : World).lockOwner = some 3 ∧
     lockHeldEnv.daemonAlive 3 = true ∧
     ConnectRun lockHeldEnv {} { lockOwner := some 3 }
       = ([Ev.checkLock], { lockOwner := some 3 }, {}, Except.error KtErr.alreadyRunning)) ∧
    (({} : World).lockOwner = none ∧
     ({} : Env).writePidOk = true ∧
     Ev.writePidFile ∈ runTrace (ConnectRun {} {} {}) ∧
     (runWorld (ConnectRun {} {} {})).lockOwner = some ({} : Env).myPid) :=
  ⟨⟨rfl, rfl, lock_exclusion.1 lockHeldEnv {} { lockOwner := some 3 } 3 rfl rfl⟩,
   ⟨rfl, rfl, lock_exclusion.2 {} {} {} rfl rfl⟩⟩

/-- Claim C4: for every CIDR string that parses and offers at least two
usable host addresses, `allocateTunIP` succeeds with two distinct addresses
(distinct both numerically and as rendered strings), both strictly inside
the network — never the network or broadcast boundary — and
`CompleteOptions` records the first as the source and the second as the
destination tunnel address. -/
theorem allocateTunIP_ok :
    ∀ (s : String) (ip ones : Nat),
      parseCIDR s = some (ip, ones) → 2 ≤ usableCount ones → tunAllocSpec s ip ones := by
  intro s ip ones hp hu
  have hR : 4 ≤ rangeSize ones := by
    unfold usableCount at hu
    omega
  set net := networkOf ip ones with hnet
  have hnum : allocateTunIPNum s = Except.ok (net + 1, net + 2) := by
    unfold allocateTunIPNum
    rw [hp]
    have c1 : 0 < usableCount ones := by omega
    have c2 : 1 < usableCount ones := by omega
    simp [allocateNext, c1, c2, hnet]
  have hstr : allocateTunIP s = Except.ok (ipToString (net + 1), ipToString (net + 2)) := by
    unfold allocateTunIP
    rw [hnum]
  have h2le : 2 ≤ 32 - ones := by
    rcases Nat.lt_or_ge (32 - ones) 2 with hlt | hge
    · exfalso
      have hle : rangeSize ones ≤ 2 := by
        unfold rangeSize
        calc 2 ^ (32 - ones) ≤ 2 ^ 1 := Nat.pow_le_pow_right (by norm_num) (by omega)
        _ = 2 := by norm_num
      omega
    · exact hge
  have hdvd : 4 ∣ net := by
    have h4 : (4 : Nat) ∣ rangeSize ones := by
      have hpd : (2 : Nat) ^ 2 ∣ 2 ^ (32 - ones) := Nat.pow_dvd_pow 2 h2le
      simpa [rangeSize] using hpd
    exact Dvd.dvd.mul_left h4 (ip / rangeSize ones)
  have hstrne : ipToString (net + 1) ≠ ipToString (net + 2) := by
    apply ipToString_ne_of_octet <;> omega
  refine ⟨net + 1, net + 2, hnum, hstr, by omega, hstrne,
    by omega, by omega, by omega, by omega, ?_⟩
  intro opts hm htun
  constructor <;> simp [CompleteOptions, hm, htun, hstr]

/-- Witness for C4 at the CIDR 10.0.0.0/24. -/
theorem allocateTunIP_ok_witness :
    parseCIDR "10.0.0.0/24" = some (167772160, 24) ∧
    2 ≤ usableCount 24 ∧
    tunAllocSpec "10.0.0.0/24" 167772160 24 :=
  ⟨by decide, by decide,
   allocateTunIP_ok "10.0.0.0/24" 167772160 24 (by decide) (by decide)⟩

/-- Claim C5: a string that does not parse as a CIDR makes `allocateTunIP`
fail with InvalidCIDR; a parsed CIDR with fewer than two usable host
addresses makes it fail with RangeExhausted; in both cases the error leaves
no address pair. -/
theorem allocateTunIP_failure :
    ∀ s : String,
      (parseCIDR s = none → allocateTunIP s = Except.error KtErr.invalidCIDR) ∧
      (∀ ip ones : Nat, parseCIDR s = some (ip, ones) → usableCount ones < 2 →
        allocateTunIP s = Except.error KtErr.rangeExhausted) := by
  intro s
  constructor
  · intro h
    unfold allocateTunIP allocateTunIPNum
    rw [h]
  · intro ip ones hp hu
    unfold allocateTunIP allocateTunIPNum
    rw [hp]
    by_cases h0 : usableCount ones = 0
    · simp [allocateNext, h0]
    · have h1 : usableCount ones = 1 := by omega
      simp [allocateNext, h1]

/-- Witness for C5: a non-CIDR string and the two-address CIDR 10.0.0.0/31
whose usable host count is zero. -/
theorem allocateTunIP_failure_witness :
    parseCIDR "banana" = none ∧
    allocateTunIP "banana" = Except.error KtErr.invalidCIDR ∧
    parseCIDR "10.0.0.0/31" = some (167772160, 31) ∧
    usableCount 31 < 2 ∧
    allocateTunIP "10.0.0.0/31" = Except.error KtErr.rangeExhausted :=
  ⟨by decide, (allocateTunIP_failure "banana").1 (by decide), by decide, by decide,
   (allocateTunIP_failure "10.0.0.0/31").2 167772160 31 (by decide) (by decide)⟩

end KtConnect
